import Mathlib

/-!
Verification development for the straw-man-arena websocket game server
(src/index.ts). The server state is embedded shallowly:

* player records become a `Player` structure over ℚ positions
  (the source uses JS numbers produced by `Math.random()` arithmetic);
* the registry `players : Map<ws, player>` becomes an association list
  `List (Nat × Player)` keyed by an abstract channel id;
* the module-level timer variables `gameTimer`, `gameRunning`, `gamePaused`
  and the presence of `timerInterval` become a `TimerState` record;
* `Math.random()` becomes an explicit input stream `rand : ℕ → ℚ`, consumed
  draw by draw exactly in source order;
* every `broadcastTimer()` call is recorded as an emitted snapshot, and the
  throttled roster broadcast (`broadcastPlayers`) becomes an explicit
  transition on a `ThrottleState` with integer millisecond times.
-/

namespace Arena

/-- Source constant `PLAYER_SIZE = 64`. -/
def PLAYER_SIZE : ℚ := 64

/-- Source constant `ARENA_WIDTH = 1200`. -/
def ARENA_WIDTH : ℚ := 1200

/-- Source constant `ARENA_HEIGHT = 600`. -/
def ARENA_HEIGHT : ℚ := 600

/-- Source constant `MAX_SPAWN_ATTEMPTS = 100`. -/
def MAX_SPAWN_ATTEMPTS : ℕ := 100

/-- Source constant `EDGE_MARGIN = 80` (local to the join handler and
`resetAllPositions`). -/
def EDGE_MARGIN : ℚ := 80

/-- Source constant `BROADCAST_RATE = 50` milliseconds. -/
def BROADCAST_RATE : ℤ := 50

/-- The `Player` interface of the source: `id`, position `x`,`y`,
`isInfected`, optional `name`, `gender`, `collidingWith`. -/
structure Player where
  id : String
  x : ℚ
  y : ℚ
  isInfected : Bool
  name : Option String
  gender : Option String
  collidingWith : Option String
deriving Repr, DecidableEq

/-- Source `isColliding(a, b)`: reduced 24×40 hitboxes anchored at the stored
positions must strictly intersect and the infection flags must differ. -/
def isColliding (a b : Player) : Bool :=
  (a.x < b.x + 24) && (a.x + 24 > b.x) &&
  (a.y < b.y + 40) && (a.y + 40 > b.y) &&
  (a.isInfected != b.isInfected)

/-- Source `isOverlapping(a, b)`: full `PLAYER_SIZE × PLAYER_SIZE` squares
strictly intersect (used only by spawn placement). -/
def isOverlapping (a b : Player) : Bool :=
  (a.x < b.x + PLAYER_SIZE) && (a.x + PLAYER_SIZE > b.x) &&
  (a.y < b.y + PLAYER_SIZE) && (a.y + PLAYER_SIZE > b.y)

/-- The timer module state: `gameTimer`, `gameRunning`, `gamePaused`, and
whether `timerInterval` is non-null (`intervalActive`). -/
structure TimerState where
  gameTimer : ℤ
  gameRunning : Bool
  gamePaused : Bool
  intervalActive : Bool
deriving Repr, DecidableEq

/-- The payload `broadcastTimer()` sends: `{timer, running, paused}`. -/
def timerSnapshot (t : TimerState) : ℤ × Bool × Bool :=
  (t.gameTimer, t.gameRunning, t.gamePaused)

/-- Source `stopTimer()`: clear the interval, set `gameRunning = false`,
`gamePaused = false`, `gameTimer = 20`, and broadcast once. -/
def stopTimer (_t : TimerState) : TimerState × List (ℤ × Bool × Bool) :=
  let t1 : TimerState :=
    { gameTimer := 20, gameRunning := false, gamePaused := false,
      intervalActive := false }
  (t1, [timerSnapshot t1])

/-- Source `startTimer()`: no-op if `timerInterval` is already set; otherwise
set `gameRunning = true`, `gamePaused = false`, install the interval, and
broadcast once.  The counter is not reset. -/
def startTimer (t : TimerState) : TimerState × List (ℤ × Bool × Bool) :=
  if t.intervalActive then (t, [])
  else
    let t1 : TimerState :=
      { t with gameRunning := true, gamePaused := false, intervalActive := true }
    (t1, [timerSnapshot t1])

/-- Source `pauseTimer()`: set `gamePaused = true` (unconditionally, whatever
`gameRunning` is) and broadcast. -/
def pauseTimer (t : TimerState) : TimerState × List (ℤ × Bool × Bool) :=
  let t1 : TimerState := { t with gamePaused := true }
  (t1, [timerSnapshot t1])

/-- Source `resumeTimer()`: set `gamePaused = false` and broadcast. -/
def resumeTimer (t : TimerState) : TimerState × List (ℤ × Bool × Bool) :=
  let t1 : TimerState := { t with gamePaused := false }
  (t1, [timerSnapshot t1])

/-- The `setInterval` callback installed by `startTimer`: if paused, do
nothing; otherwise decrement `gameTimer` and broadcast; then, if the counter
reached ≤ 0, call `stopTimer()` (which broadcasts), set `gameTimer = 20`
again, and broadcast once more. -/
def tickTimer (t : TimerState) : TimerState × List (ℤ × Bool × Bool) :=
  if t.gamePaused then (t, [])
  else
    let t1 : TimerState := { t with gameTimer := t.gameTimer - 1 }
    if t1.gameTimer ≤ 0 then
      let s := stopTimer t1
      let t3 : TimerState := { s.1 with gameTimer := 20 }
      (t3, timerSnapshot t1 :: s.2 ++ [timerSnapshot t3])
    else (t1, [timerSnapshot t1])

/-- Timer steps available to the system: `game:start` / `game:stop` messages,
`pauseTimer` (reached through the collision branch of the `move` handler),
`resumeTimer` (reached through `player:infect` and `answer:correct`), and the
interval tick, which can only fire while `timerInterval` is installed. -/
inductive TimerStep : TimerState → TimerState → Prop
  | start (t : TimerState) : TimerStep t (startTimer t).1
  | stop (t : TimerState) : TimerStep t (stopTimer t).1
  | pause (t : TimerState) : TimerStep t (pauseTimer t).1
  | resume (t : TimerState) : TimerStep t (resumeTimer t).1
  | tick (t : TimerState) : t.intervalActive = true → TimerStep t (tickTimer t).1

/-- Process-start timer state: `gameTimer = 20`, `gameRunning = false`,
`gamePaused = false`, `timerInterval = null`. -/
def timerInit : TimerState :=
  { gameTimer := 20, gameRunning := false, gamePaused := false,
    intervalActive := false }

/-- Timer states reachable from process start by message-handler commands and
interval ticks. -/
def TimerReachable (s : TimerState) : Prop :=
  Relation.ReflTransGen TimerStep timerInit s

/-- Clamping used by the `move` handler:
`Math.max(0, Math.min(v, hi))`. -/
def clampTo (hi v : ℚ) : ℚ := max 0 (min v hi)

/-- The server registry `players : Map<ws, player>`, as an association list
from abstract channel ids to player records (insertion order preserved, keys
unique by `Map` semantics). -/
abbrev Registry := List (Nat × Player)

/-- `players.get(ws)` on the association list. -/
def getPlayer (reg : Registry) (ws : Nat) : Option Player :=
  match reg.find? (fun e => e.1 = ws) with
  | some e => some e.2
  | none => none

/-- `players.set(ws, p)` for a `ws` already present: replace that entry's
record in place. -/
def setPlayer (reg : Registry) (ws : Nat) (p : Player) : Registry :=
  reg.map (fun e => if e.1 = ws then (e.1, p) else e)

/-- The collision loop of the `move` handler: iterate over `players.entries()`
in order; skip the mover's own entry; on `isColliding(player, otherPlayer)`
set `player.collidingWith = otherPlayer.id`, `otherPlayer.collidingWith =
player.id`, and call `pauseTimer()`.  The loop threads the mover record (the
live `player` object), the timer, and the broadcast log; only `collidingWith`
fields are mutated, and `isColliding` never reads `collidingWith`, so testing
against the pre-loop entries is exact. -/
def collisionPass (ws : Nat) (mover : Player) (t : TimerState) :
    Registry → Registry × Player × TimerState × List (ℤ × Bool × Bool)
  | [] => ([], mover, t, [])
  | e :: rest =>
    if e.1 = ws then
      let r := collisionPass ws mover t rest
      (e :: r.1, r.2)
    else if isColliding mover e.2 then
      let other1 : Player := { e.2 with collidingWith := some mover.id }
      let mover1 : Player := { mover with collidingWith := some e.2.id }
      let p := pauseTimer t
      let r := collisionPass ws mover1 p.1 rest
      ((e.1, other1) :: r.1, r.2.1, r.2.2.1, p.2 ++ r.2.2.2)
    else
      let r := collisionPass ws mover t rest
      (e :: r.1, r.2)

/-- The physics portion of the `move` handler applied to the looked-up
record: add `dx`,`dy`, clamp each axis to `[0, dimension - PLAYER_SIZE]`,
overwrite `isInfected` when the payload carries a boolean, and reset the
mover's own `collidingWith` to null. -/
def moverAfterPhysics (player : Player) (dx dy : ℚ)
    (isInfectedField : Option Bool) : Player :=
  let p1 : Player :=
    { player with
      x := clampTo (ARENA_WIDTH - PLAYER_SIZE) (player.x + dx),
      y := clampTo (ARENA_HEIGHT - PLAYER_SIZE) (player.y + dy) }
  let p2 : Player :=
    match isInfectedField with
    | some b => { p1 with isInfected := b }
    | none => p1
  { p2 with collidingWith := none }

/-- The `move` handler: look up the sender's record (silently drop the message
if absent); apply the physics step; run the collision loop; write the mover
back with `players.set`; finally request a throttled roster broadcast
(recorded here as the returned flag).  Returns (registry, timer, timer
broadcasts, roster-broadcast requested). -/
def moveHandler (ws : Nat) (dx dy : ℚ) (isInfectedField : Option Bool)
    (reg : Registry) (t : TimerState) :
    Registry × TimerState × List (ℤ × Bool × Bool) × Bool :=
  match getPlayer reg ws with
  | none => (reg, t, [], false)
  | some player =>
    let p3 := moverAfterPhysics player dx dy isInfectedField
    let r := collisionPass ws p3 t reg
    (setPlayer r.1 ws r.2.1, r.2.2.1, r.2.2.2, true)

/-- The `player:gender` handler: destructure `{playerId, gender}`; return
immediately if `gameRunning`; otherwise set `gender` on every record whose
`id` equals `playerId`, then broadcast immediately (returned flag). -/
def genderHandler (gameRunning : Bool) (playerId gender : String)
    (reg : Registry) : Registry × Bool :=
  if gameRunning then (reg, false)
  else
    (reg.map (fun e =>
      if e.2.id = playerId then (e.1, { e.2 with gender := some gender })
      else e), true)

/-- One infected-zone candidate: `CENTER_ZONE.x + Math.random() *
CENTER_ZONE.width` and `CENTER_ZONE.y + Math.random() * CENTER_ZONE.height`,
with `CENTER_ZONE = {x: W/2-100, y: H/2-75, width: 200, height: 150}`.
`rand` is the stream of `Math.random()` results; `j` is the index of the next
unconsumed draw (each attempt consumes two). -/
def infectedCandidate (rand : ℕ → ℚ) (j : ℕ) : ℚ × ℚ :=
  (ARENA_WIDTH / 2 - 100 + rand j * 200,
   ARENA_HEIGHT / 2 - 75 + rand (j + 1) * 150)

/-- One healthy-edge candidate: draw `edge = Math.floor(Math.random() * 4)`,
then `x`,`y` from two more draws according to the chosen edge band (the
`default` switch arm shares the right-edge case).  Each attempt consumes
three draws starting at index `j`. -/
def healthyCandidate (rand : ℕ → ℚ) (j : ℕ) : ℚ × ℚ :=
  let edge : ℤ := Rat.floor (rand j * 4)
  if edge = 0 then
    (EDGE_MARGIN + rand (j + 1) * (ARENA_WIDTH - 2 * EDGE_MARGIN - PLAYER_SIZE),
     rand (j + 2) * EDGE_MARGIN)
  else if edge = 1 then
    (EDGE_MARGIN + rand (j + 1) * (ARENA_WIDTH - 2 * EDGE_MARGIN - PLAYER_SIZE),
     ARENA_HEIGHT - EDGE_MARGIN - PLAYER_SIZE + rand (j + 2) * EDGE_MARGIN)
  else if edge = 2 then
    (rand (j + 1) * EDGE_MARGIN,
     EDGE_MARGIN + rand (j + 2) * (ARENA_HEIGHT - 2 * EDGE_MARGIN - PLAYER_SIZE))
  else
    (ARENA_WIDTH - EDGE_MARGIN - PLAYER_SIZE + rand (j + 1) * EDGE_MARGIN,
     EDGE_MARGIN + rand (j + 2) * (ARENA_HEIGHT - 2 * EDGE_MARGIN - PLAYER_SIZE))

/-- The rejection-sampling loop shared by every placement site:
`while (!placed && attempts < MAX_SPAWN_ATTEMPTS)` build a candidate, test it
with `isOverlapping` against every already-placed player, accept the first
non-overlapping one.  `draws` is how many `Math.random()` results one attempt
consumes (2 for infected, 3 for healthy); `fuel` counts remaining attempts.
Returns the accepted position (or `none` after exhaustion) and the index of
the next unconsumed draw. -/
def placeLoop (cand : (ℕ → ℚ) → ℕ → ℚ × ℚ) (draws : ℕ) (rand : ℕ → ℚ)
    (placed : List Player) (pl : Player) : ℕ → ℕ → Option (ℚ × ℚ) × ℕ
  | j, 0 => (none, j)
  | j, fuel + 1 =>
    let c := cand rand j
    let tempPlayer : Player := { pl with x := c.1, y := c.2 }
    if placed.any (fun p => isOverlapping tempPlayer p) then
      placeLoop cand draws rand placed pl (j + draws) fuel
    else (some c, j + draws)

/-- The join handler's placement for an infected joiner: run the loop over the
current roster snapshot; on exhaustion fall back to the exact arena center
minus half the player size (no warning, no error). -/
def joinPlaceInfected (rand : ℕ → ℚ) (placed : List Player) (pl : Player) :
    ℚ × ℚ :=
  match (placeLoop infectedCandidate 2 rand placed pl 0 MAX_SPAWN_ATTEMPTS).1 with
  | some c => c
  | none => (ARENA_WIDTH / 2 - PLAYER_SIZE / 2, ARENA_HEIGHT / 2 - PLAYER_SIZE / 2)

/-- The join handler's placement for a healthy joiner: run the loop; on
exhaustion fall back to the margin-offset top-left corner
`(EDGE_MARGIN, EDGE_MARGIN)`. -/
def joinPlaceHealthy (rand : ℕ → ℚ) (placed : List Player) (pl : Player) :
    ℚ × ℚ :=
  match (placeLoop healthyCandidate 3 rand placed pl 0 MAX_SPAWN_ATTEMPTS).1 with
  | some c => c
  | none => (EDGE_MARGIN, EDGE_MARGIN)

/-- One group pass of `resetAllPositions`: for each player of the group run
the placement loop against the shared `placed` accumulator; on success store
the position, null out `collidingWith`, and push the player onto the
accumulator; on exhaustion only `console.warn` — the record is left entirely
untouched.  Returns each player paired with its `placed` flag, the final
accumulator, and the next draw index. -/
def resetGroupLoop (cand : (ℕ → ℚ) → ℕ → ℚ × ℚ) (draws : ℕ) (rand : ℕ → ℚ) :
    List Player → List Player → ℕ → List (Player × Bool) × List Player × ℕ
  | [], placed, j => ([], placed, j)
  | pl :: rest, placed, j =>
    let a := placeLoop cand draws rand placed pl j MAX_SPAWN_ATTEMPTS
    match a.1 with
    | some c =>
      let pl1 : Player := { pl with x := c.1, y := c.2, collidingWith := none }
      let r := resetGroupLoop cand draws rand rest (placed ++ [pl1]) a.2
      ((pl1, true) :: r.1, r.2)
    | none =>
      let r := resetGroupLoop cand draws rand rest placed a.2
      ((pl, false) :: r.1, r.2)

/-- `resetAllPositions()`: split the roster into infected and regular players,
place all infected (center zone) first into an initially empty accumulator,
then all regular players (edge bands) against the same accumulator.  The
result lists the records of each group after the sweep, each paired with its
`placed` flag. -/
def resetAllPositions (rand : ℕ → ℚ) (roster : List Player) :
    List (Player × Bool) × List (Player × Bool) :=
  let infectedPlayers := roster.filter (fun p => p.isInfected)
  let regularPlayers := roster.filter (fun p => !p.isInfected)
  let ri := resetGroupLoop infectedCandidate 2 rand infectedPlayers [] 0
  let rr := resetGroupLoop healthyCandidate 3 rand regularPlayers ri.2.1 ri.2.2
  (ri.1, rr.1)

/-- The throttler's module-level variables: `lastBroadcastTime`,
`broadcastPending`, and `broadcastTimeout` (modelled as the absolute time the
scheduled callback will fire, `none` when null). -/
structure ThrottleState where
  lastBroadcastTime : ℤ
  broadcastPending : Bool
  broadcastTimeout : Option ℤ
deriving Repr, DecidableEq

/-- `broadcastPlayersImmediate()`: send the full roster to every channel now
and record `lastBroadcastTime = Date.now()`.  It does not touch
`broadcastPending` or `broadcastTimeout`.  Emissions are logged as
(time, roster) pairs. -/
def broadcastPlayersImmediate (now : ℤ) (roster : List Player)
    (s : ThrottleState) : ThrottleState × List (ℤ × List Player) :=
  ({ s with lastBroadcastTime := now }, [(now, roster)])

/-- `broadcastPlayers()` on the routine `players:update` path, called at time
`now` with the then-current roster: if ≥ `BROADCAST_RATE` ms passed since the
last emission, emit immediately and clear any pending schedule; otherwise, if
nothing is pending, schedule one deferred emission after the remaining wait
(`BROADCAST_RATE - timeSinceLastBroadcast`); otherwise do nothing. -/
def broadcastPlayersThrottled (now : ℤ) (roster : List Player)
    (s : ThrottleState) : ThrottleState × List (ℤ × List Player) :=
  let timeSinceLastBroadcast := now - s.lastBroadcastTime
  if timeSinceLastBroadcast ≥ BROADCAST_RATE then
    let b := broadcastPlayersImmediate now roster s
    ({ b.1 with broadcastPending := false, broadcastTimeout := none }, b.2)
  else if !s.broadcastPending then
    let s1 : ThrottleState :=
      { s with
        broadcastPending := true,
        broadcastTimeout := some (now + (BROADCAST_RATE - timeSinceLastBroadcast)) }
    (s1, [])
  else (s, [])

/-- The deferred `setTimeout` callback firing at time `now` with the
then-current roster: emit immediately, then clear `broadcastPending` and
`broadcastTimeout`. -/
def throttleTimeoutFire (now : ℤ) (roster : List Player) (s : ThrottleState) :
    ThrottleState × List (ℤ × List Player) :=
  let b := broadcastPlayersImmediate now roster s
  ({ b.1 with broadcastPending := false, broadcastTimeout := none }, b.2)

/-- Events on the throttler's timeline: a throttled `players:update` trigger,
or the scheduled callback firing.  Each carries the wall-clock time and the
roster current at that instant. -/
inductive ThrottleEvent
  | trigger (now : ℤ) (roster : List Player)
  | fire (now : ℤ) (roster : List Player)

/-- Process a timeline of throttle events in order, collecting emissions.  A
`fire` event is only meaningful when the scheduled callback is still pending
for exactly that time; a stale or absent timeout fires nothing. -/
def runThrottle (s : ThrottleState) :
    List ThrottleEvent → ThrottleState × List (ℤ × List Player)
  | [] => (s, [])
  | ThrottleEvent.trigger now roster :: rest =>
    let b := broadcastPlayersThrottled now roster s
    let r := runThrottle b.1 rest
    (r.1, b.2 ++ r.2)
  | ThrottleEvent.fire now roster :: rest =>
    if s.broadcastTimeout = some now then
      let b := throttleTimeoutFire now roster s
      let r := runThrottle b.1 rest
      (r.1, b.2 ++ r.2)
    else
      let r := runThrottle s rest
      (r.1, r.2)

/-! ### Specification-side definitions and derived characterizations -/

/-- Spec wording for the collision geometry: the 24-wide × 40-tall
axis-aligned rectangles anchored at the two players' stored positions
strictly intersect. -/
def reducedHitboxesIntersect (a b : Player) : Prop :=
  a.x < b.x + 24 ∧ b.x < a.x + 24 ∧ a.y < b.y + 40 ∧ b.y < a.y + 40

/-- The predicate the collision loop effectively tests for an entry of the
registry: it is another channel, and its record collides with the mover. -/
def collPred (m : Player) (ws : Nat) (e : Nat × Player) : Bool :=
  (e.1 != ws) && isColliding m e.2

/-- What one iteration of the collision loop leaves behind for a compared
entry: a colliding opponent gets `collidingWith = mover.id`, everything else
is untouched. -/
def markColliding (m : Player) (ws : Nat) (e : Nat × Player) : Nat × Player :=
  if collPred m ws e then (e.1, { e.2 with collidingWith := some m.id }) else e

/-- The mover record as it stands after the collision loop: starting from the
reset mover, each colliding opponent in turn overwrites `collidingWith` with
its id (so the last one wins). -/
def moverAfterPass (m : Player) (ws : Nat) (reg : Registry) : Player :=
  (reg.filter (fun e => collPred m ws e)).foldl
    (fun acc e => { acc with collidingWith := some e.2.id }) m

/-! ### Helper lemmas -/

theorem isColliding_setCollidingWith (m b : Player) (v : Option String) :
    isColliding { m with collidingWith := v } b = isColliding m b := rfl

theorem collPred_setCollidingWith (m : Player) (v : Option String) (ws : Nat) :
    collPred { m with collidingWith := v } ws = collPred m ws := rfl

theorem markColliding_setCollidingWith (m : Player) (v : Option String)
    (ws : Nat) : markColliding { m with collidingWith := v } ws =
      markColliding m ws := rfl

theorem collisionPass_registry (ws : Nat) (m : Player) (t : TimerState) :
    ∀ reg : Registry, (collisionPass ws m t reg).1 =
      reg.map (markColliding m ws)
  | [] => rfl
  | e :: rest => by
    by_cases hws : e.1 = ws
    · simp only [collisionPass, if_pos hws, List.map_cons]
      have hpred : collPred m ws e = false := by
        simp [collPred, hws]
      rw [collisionPass_registry ws m t rest]
      simp [markColliding, hpred]
    · by_cases hcol : isColliding m e.2 = true
      · have hpred : collPred m ws e = true := by
          simp [collPred, hws, hcol]
        simp only [collisionPass, if_neg hws, if_pos hcol, List.map_cons]
        rw [collisionPass_registry ws _ _ rest,
          markColliding_setCollidingWith]
        simp [markColliding, hpred]
      · have hpred : collPred m ws e = false := by
          simp only [Bool.not_eq_true] at hcol
          simp [collPred, hcol]
        simp only [collisionPass, if_neg hws, if_neg hcol, List.map_cons]
        rw [collisionPass_registry ws m t rest]
        simp [markColliding, hpred]

theorem collisionPass_timer (ws : Nat) (m : Player) (t : TimerState) :
    ∀ reg : Registry, (collisionPass ws m t reg).2.2.1 =
      (if reg.any (fun e => collPred m ws e) then
        { t with gamePaused := true } else t)
  | [] => rfl
  | e :: rest => by
    by_cases hws : e.1 = ws
    · have hpred : collPred m ws e = false := by simp [collPred, hws]
      simp only [collisionPass, if_pos hws]
      rw [collisionPass_timer ws m t rest, List.any_cons, hpred, Bool.false_or]
    · by_cases hcol : isColliding m e.2 = true
      · have hpred : collPred m ws e = true := by simp [collPred, hws, hcol]
        simp only [collisionPass, if_neg hws, if_pos hcol]
        rw [collisionPass_timer ws _ _ rest, collPred_setCollidingWith]
        by_cases hrest : rest.any (fun e => collPred m ws e) = true
        · simp [hpred, hrest, pauseTimer]
        · simp only [Bool.not_eq_true] at hrest
          simp [hpred, hrest, pauseTimer]
      · have hpred : collPred m ws e = false := by
          simp only [Bool.not_eq_true] at hcol
          simp [collPred, hcol]
        simp only [collisionPass, if_neg hws, if_neg hcol]
        rw [collisionPass_timer ws m t rest, List.any_cons, hpred, Bool.false_or]

theorem collisionPass_mover (ws : Nat) (m : Player) (t : TimerState) :
    ∀ reg : Registry, (collisionPass ws m t reg).2.1 = moverAfterPass m ws reg
  | [] => rfl
  | e :: rest => by
    by_cases hws : e.1 = ws
    · have hpred : collPred m ws e = false := by simp [collPred, hws]
      simp only [collisionPass, if_pos hws]
      rw [collisionPass_mover ws m t rest]
      simp [moverAfterPass, hpred]
    · by_cases hcol : isColliding m e.2 = true
      · have hpred : collPred m ws e = true := by simp [collPred, hws, hcol]
        simp only [collisionPass, if_neg hws, if_pos hcol]
        rw [collisionPass_mover ws _ _ rest]
        simp only [moverAfterPass, collPred_setCollidingWith,
          List.filter_cons, hpred, if_pos, List.foldl_cons]
      · have hpred : collPred m ws e = false := by
          simp only [Bool.not_eq_true] at hcol
          simp [collPred, hcol]
        simp only [collisionPass, if_neg hws, if_neg hcol]
        rw [collisionPass_mover ws m t rest]
        simp [moverAfterPass, hpred]

theorem moverAfterPass_x (m : Player) (ws : Nat) (reg : Registry) :
    (moverAfterPass m ws reg).x = m.x := by
  unfold moverAfterPass
  generalize reg.filter (fun e => collPred m ws e) = l
  induction l generalizing m with
  | nil => rfl
  | cons e rest ih => exact (ih _).trans rfl

theorem moverAfterPass_y (m : Player) (ws : Nat) (reg : Registry) :
    (moverAfterPass m ws reg).y = m.y := by
  unfold moverAfterPass
  generalize reg.filter (fun e => collPred m ws e) = l
  induction l generalizing m with
  | nil => rfl
  | cons e rest ih => exact (ih _).trans rfl

theorem getPlayer_setPlayer_map (f : Nat × Player → Nat × Player)
    (hf : ∀ e, (f e).1 = e.1) (ws : Nat) (q p : Player) :
    ∀ reg : Registry, getPlayer reg ws = some p →
      getPlayer (setPlayer (reg.map f) ws q) ws = some q := by
  intro reg
  induction reg with
  | nil => intro h; simp [getPlayer] at h
  | cons e rest ih =>
    intro h
    by_cases hws : e.1 = ws
    · have h1 : (f e).1 = ws := (hf e).trans hws
      simp [getPlayer, setPlayer, List.find?_cons, h1]
    · have h1 : ¬((f e).1 = ws) := by rw [hf e]; exact hws
      have h2 : getPlayer rest ws = some p := by
        simpa [getPlayer, List.find?_cons, hws] using h
      have h3 := ih h2
      simpa [getPlayer, setPlayer, List.find?_cons, h1, hws] using h3

theorem moverAfterPhysics_x (p : Player) (dx dy : ℚ) (inf : Option Bool) :
    (moverAfterPhysics p dx dy inf).x =
      clampTo (ARENA_WIDTH - PLAYER_SIZE) (p.x + dx) := by
  unfold moverAfterPhysics; cases inf <;> rfl

theorem moverAfterPhysics_y (p : Player) (dx dy : ℚ) (inf : Option Bool) :
    (moverAfterPhysics p dx dy inf).y =
      clampTo (ARENA_HEIGHT - PLAYER_SIZE) (p.y + dy) := by
  unfold moverAfterPhysics; cases inf <;> rfl

theorem moverAfterPhysics_collidingWith (p : Player) (dx dy : ℚ)
    (inf : Option Bool) : (moverAfterPhysics p dx dy inf).collidingWith =
      none := by
  unfold moverAfterPhysics; cases inf <;> rfl

theorem clampTo_nonneg (hi v : ℚ) : 0 ≤ clampTo hi v := le_max_left 0 _

theorem clampTo_le (hi v : ℚ) (h : 0 ≤ hi) : clampTo hi v ≤ hi :=
  max_le h (min_le_right v hi)

theorem markColliding_key (m : Player) (ws : Nat) (e : Nat × Player) :
    (markColliding m ws e).1 = e.1 := by
  unfold markColliding; split <;> rfl

/-! ### Concrete fixtures used by witnesses and counterexamples

Batteries marks the `Rat` field operations `@[irreducible]`; the concrete
evaluations below need them to reduce. -/

attribute [local semireducible] Rat.add Rat.mul Rat.sub Rat.inv
  Rat.ofScientific

/-- A healthy player standing at (100, 100). -/
def alice : Player := ⟨"alice", 100, 100, false, none, none, none⟩

/-- An infected player standing at (110, 110), whose reduced hitbox overlaps
alice's. -/
def bob : Player := ⟨"bob", 110, 110, true, none, none, none⟩

/-- A healthy player standing at (110, 110): same spot as bob but healthy. -/
def carol : Player := ⟨"carol", 110, 110, false, none, none, none⟩

/-- An infected player sitting exactly on the infected candidate produced by
a `Math.random()` stream of zeros, blocking every center-zone attempt. -/
def blockCenter : Player := ⟨"bc", 500, 225, true, none, none, none⟩

/-- A healthy player sitting exactly on the top-edge candidate produced by a
`Math.random()` stream of zeros, blocking every edge attempt. -/
def blockEdge : Player := ⟨"be", 80, 0, false, none, none, none⟩

/-- An infected player at the origin with a stale collision marker. -/
def infA : Player := ⟨"a0", 0, 0, true, none, none, some "stale"⟩

/-- An infected player at (10, 10) with a stale collision marker. -/
def infB : Player := ⟨"b0", 10, 10, true, none, none, some "stale"⟩

/-! ### Claim theorems -/

/-- Claim C4: `isColliding(a, b)` returns true exactly when the 24×40 reduced
hitboxes anchored at the two stored positions strictly intersect and the two
`isInfected` flags differ; players with equal flags never collide. -/
theorem isColliding_characterization (a b : Player) :
    (isColliding a b = true ↔
      reducedHitboxesIntersect a b ∧ a.isInfected ≠ b.isInfected) ∧
    (a.isInfected = b.isInfected → isColliding a b = false) := by
  constructor
  · unfold isColliding reducedHitboxesIntersect
    simp only [Bool.and_eq_true, decide_eq_true_eq, bne_iff_ne, gt_iff_lt]
    tauto
  · intro h
    simp [isColliding, h]

/-- Witness for C4: carol stands exactly on bob's position but shares alice's
healthy flag, so she does not collide with alice. -/
theorem isColliding_characterization_witness :
    isColliding alice carol = false :=
  (isColliding_characterization alice carol).2 rfl

/-- Claim C9: a `move` message on a channel with no registered player record
is silently dropped — registry, timer, broadcasts all unchanged. -/
theorem move_unregistered_dropped (ws : Nat) (dx dy : ℚ) (inf : Option Bool)
    (reg : Registry) (t : TimerState) (h : getPlayer reg ws = none) :
    moveHandler ws dx dy inf reg t = (reg, t, [], false) := by
  unfold moveHandler
  rw [h]

/-- Witness for C9: a `move` on channel 5 of an empty registry is a no-op. -/
theorem move_unregistered_dropped_witness :
    moveHandler 5 1 2 none [] timerInit = ([], timerInit, [], false) :=
  move_unregistered_dropped 5 1 2 none [] timerInit rfl

/-- Claim C3: after any movement the mover's stored position satisfies
`0 ≤ x ≤ ARENA_WIDTH - PLAYER_SIZE` and `0 ≤ y ≤ ARENA_HEIGHT - PLAYER_SIZE`
(that is, `0 ≤ x ≤ 1136` and `0 ≤ y ≤ 536`). -/
theorem move_position_clamped (ws : Nat) (dx dy : ℚ) (inf : Option Bool)
    (reg : Registry) (t : TimerState) (p : Player)
    (h : getPlayer reg ws = some p) :
    ∃ q : Player, getPlayer (moveHandler ws dx dy inf reg t).1 ws = some q ∧
      0 ≤ q.x ∧ q.x ≤ ARENA_WIDTH - PLAYER_SIZE ∧
      0 ≤ q.y ∧ q.y ≤ ARENA_HEIGHT - PLAYER_SIZE := by
  refine ⟨moverAfterPass (moverAfterPhysics p dx dy inf) ws reg,
    ?_, ?_, ?_, ?_, ?_⟩
  · unfold moveHandler
    rw [h]
    simp only [collisionPass_registry, collisionPass_mover]
    exact getPlayer_setPlayer_map _ (markColliding_key _ ws) ws _ p reg h
  · rw [moverAfterPass_x, moverAfterPhysics_x]
    exact clampTo_nonneg _ _
  · rw [moverAfterPass_x, moverAfterPhysics_x]
    refine clampTo_le _ _ ?_
    norm_num [ARENA_WIDTH, PLAYER_SIZE]
  · rw [moverAfterPass_y, moverAfterPhysics_y]
    exact clampTo_nonneg _ _
  · rw [moverAfterPass_y, moverAfterPhysics_y]
    refine clampTo_le _ _ ?_
    norm_num [ARENA_HEIGHT, PLAYER_SIZE]

/-- Witness for C3: alice moving by (5000, 0) stays inside the arena bounds
(her x clamps to 1136). -/
theorem move_position_clamped_witness :
    ∃ q : Player,
      getPlayer (moveHandler 1 5000 0 none [(1, alice)] timerInit).1 1 =
        some q ∧
      0 ≤ q.x ∧ q.x ≤ ARENA_WIDTH - PLAYER_SIZE ∧
      0 ≤ q.y ∧ q.y ≤ ARENA_HEIGHT - PLAYER_SIZE :=
  move_position_clamped 1 5000 0 none [(1, alice)] timerInit alice rfl

theorem moverAfterPhysics_id (p : Player) (dx dy : ℚ) (inf : Option Bool) :
    (moverAfterPhysics p dx dy inf).id = p.id := by
  unfold moverAfterPhysics; cases inf <;> rfl

/-- Claim C1: processing a `move` for a registered player first resets the
mover's `collidingWith` to null; every other entry whose reduced hitbox
intersects the mover's with a differing `isInfected` flag gets
`collidingWith = mover.id` and the timer's paused flag is set to true (last
collider wins on the mover's side, per `moverAfterPass`); a compared
stationary entry that does not collide is left exactly as it was. -/
theorem move_collision_effects (ws : Nat) (dx dy : ℚ) (inf : Option Bool)
    (reg : Registry) (t : TimerState) (p : Player)
    (h : getPlayer reg ws = some p) :
    (moverAfterPhysics p dx dy inf).collidingWith = none ∧
    (moveHandler ws dx dy inf reg t).1 =
      setPlayer (reg.map (markColliding (moverAfterPhysics p dx dy inf) ws))
        ws (moverAfterPass (moverAfterPhysics p dx dy inf) ws reg) ∧
    (moveHandler ws dx dy inf reg t).2.1 =
      (if reg.any (fun e => collPred (moverAfterPhysics p dx dy inf) ws e)
        then { t with gamePaused := true } else t) ∧
    (∀ e ∈ reg, e.1 ≠ ws →
      isColliding (moverAfterPhysics p dx dy inf) e.2 = true →
      (e.1, { e.2 with collidingWith := some p.id }) ∈
        (moveHandler ws dx dy inf reg t).1 ∧
      (moveHandler ws dx dy inf reg t).2.1.gamePaused = true) ∧
    (∀ e ∈ reg, e.1 ≠ ws →
      isColliding (moverAfterPhysics p dx dy inf) e.2 = false →
      e ∈ (moveHandler ws dx dy inf reg t).1) := by
  have hreg : (moveHandler ws dx dy inf reg t).1 =
      setPlayer (reg.map (markColliding (moverAfterPhysics p dx dy inf) ws))
        ws (moverAfterPass (moverAfterPhysics p dx dy inf) ws reg) := by
    unfold moveHandler
    rw [h]
    simp only [collisionPass_registry, collisionPass_mover]
  have htimer : (moveHandler ws dx dy inf reg t).2.1 =
      (if reg.any (fun e => collPred (moverAfterPhysics p dx dy inf) ws e)
        then { t with gamePaused := true } else t) := by
    unfold moveHandler
    rw [h]
    simp only [collisionPass_timer]
  refine ⟨moverAfterPhysics_collidingWith p dx dy inf, hreg, htimer, ?_, ?_⟩
  · intro e he hne hcol
    have hpred : collPred (moverAfterPhysics p dx dy inf) ws e = true := by
      simp [collPred, bne_iff_ne, hne, hcol]
    constructor
    · rw [hreg]
      unfold setPlayer
      have hmark : markColliding (moverAfterPhysics p dx dy inf) ws e =
          (e.1, { e.2 with collidingWith := some p.id }) := by
        unfold markColliding
        rw [if_pos hpred, moverAfterPhysics_id]
      have h1 : (e.1, { e.2 with collidingWith := some p.id }) ∈
          reg.map (markColliding (moverAfterPhysics p dx dy inf) ws) := by
        rw [← hmark]
        exact List.mem_map_of_mem _ he
      have h2 := List.mem_map_of_mem
        (fun e' => if e'.1 = ws then (e'.1, moverAfterPass
          (moverAfterPhysics p dx dy inf) ws reg) else e') h1
      simpa [if_neg hne] using h2
    · rw [htimer, if_pos (List.any_eq_true.mpr ⟨e, he, hpred⟩)]
  · intro e he hne hcol
    have hpred : collPred (moverAfterPhysics p dx dy inf) ws e = false := by
      simp [collPred, hcol]
    rw [hreg]
    unfold setPlayer
    have hmark : markColliding (moverAfterPhysics p dx dy inf) ws e = e := by
      unfold markColliding
      rw [if_neg (by simp [hpred])]
    have h1 : e ∈ reg.map (markColliding (moverAfterPhysics p dx dy inf) ws) := by
      rw [← hmark]
      exact List.mem_map_of_mem _ he
    have h2 := List.mem_map_of_mem
      (fun e' => if e'.1 = ws then (e'.1, moverAfterPass
        (moverAfterPhysics p dx dy inf) ws reg) else e') h1
    simpa [if_neg hne] using h2

/-- Witness for C1: alice moving at (100,100) collides with bob at (110,110);
the collision pass pauses the idle timer. -/
theorem move_collision_effects_witness :
    (moveHandler 1 0 0 none [(1, alice), (2, bob)] timerInit).2.1.gamePaused =
      true := by
  have hthm := move_collision_effects 1 0 0 none [(1, alice), (2, bob)]
    timerInit alice rfl
  exact (hthm.2.2.2.1 (2, bob) (by simp) (by decide) (by decide)).2

/-- Claim C8: `player:gender` is a complete no-op while the round is running;
otherwise it sets the gender of every registered record whose id matches the
given playerId (duplicated ids are all mutated) and requests an immediate
broadcast. -/
theorem gender_handler_effects (running : Bool) (pid g : String)
    (reg : Registry) :
    (running = true → genderHandler running pid g reg = (reg, false)) ∧
    (running = false →
      (genderHandler running pid g reg).2 = true ∧
      (∀ e ∈ reg, e.2.id = pid →
        (e.1, { e.2 with gender := some g }) ∈
          (genderHandler running pid g reg).1) ∧
      (∀ e ∈ reg, e.2.id ≠ pid → e ∈ (genderHandler running pid g reg).1)) := by
  constructor
  · intro h
    simp [genderHandler, h]
  · intro h
    refine ⟨by simp [genderHandler, h], ?_, ?_⟩
    · intro e he hid
      simp only [genderHandler, h, if_neg Bool.false_ne_true]
      exact List.mem_map.mpr ⟨e, he, by simp [hid]⟩
    · intro e he hid
      simp only [genderHandler, h, if_neg Bool.false_ne_true]
      exact List.mem_map.mpr ⟨e, he, by simp [hid]⟩

/-- A second record deliberately sharing alice's client-chosen id. -/
def aliceTwin : Player := ⟨"alice", 200, 200, false, none, none, none⟩

/-- Witness for C8: with two records sharing id "alice", a gender change while
idle mutates both. -/
theorem gender_handler_effects_witness :
    (1, { alice with gender := some "f" }) ∈
      (genderHandler false "alice" "f" [(1, alice), (3, aliceTwin)]).1 ∧
    (3, { aliceTwin with gender := some "f" }) ∈
      (genderHandler false "alice" "f" [(1, alice), (3, aliceTwin)]).1 := by
  have hthm := gender_handler_effects false "alice" "f" [(1, alice), (3, aliceTwin)]
  exact ⟨(hthm.2 rfl).2.1 (1, alice) (by simp) rfl,
    (hthm.2 rfl).2.1 (3, aliceTwin) (by simp) rfl⟩

/-- Claim C2 (amended): the three spec states are not the only reachable
(running, paused) pairs — a collision while the timer is idle reaches
(running=false, paused=true); the genuine invariant, proved here, is that the
recurring interval is installed exactly when `gameRunning` is true. -/
theorem timer_reachable_interval_iff_running (s : TimerState)
    (h : TimerReachable s) : s.intervalActive = s.gameRunning := by
  induction h with
  | refl => rfl
  | tail _ step ih =>
    cases step with
    | start =>
      simp only [startTimer]
      split
      · exact ih
      · rfl
    | stop => rfl
    | pause => exact ih
    | resume => exact ih
    | tick ht =>
      simp only [tickTimer]
      split
      · exact ih
      · split
        · rfl
        · exact ih

/-- Witness for C2's amended invariant at the initial state. -/
theorem timer_reachable_interval_iff_running_witness :
    timerInit.intervalActive = timerInit.gameRunning :=
  timer_reachable_interval_iff_running timerInit Relation.ReflTransGen.refl

/-- Counterexample to C2 as stated: one `pauseTimer` step from the initial
state (a collision during a `move` while the timer is idle) reaches
running=false, paused=true — outside the three spec states. -/
theorem timer_paused_while_idle_reachable :
    TimerReachable
      { gameTimer := 20, gameRunning := false, gamePaused := true,
        intervalActive := false } ∧
    ({ gameTimer := 20, gameRunning := false, gamePaused := true,
        intervalActive := false } : TimerState).gamePaused = true ∧
    ({ gameTimer := 20, gameRunning := false, gamePaused := true,
        intervalActive := false } : TimerState).gameRunning = false :=
  ⟨Relation.ReflTransGen.single (TimerStep.pause timerInit), rfl, rfl⟩

/-- Claim C6 (amended): a non-paused tick decrements the counter and
broadcasts the decremented snapshot; when the counter is then ≤ 0 the
interval is stopped, the state resets to {20, false, false}, and two further
broadcasts are emitted (one inside `stopTimer`, one from the tick callback),
for three in total — not one further. -/
theorem tick_effects (t : TimerState) (h : t.gamePaused = false) :
    (0 < t.gameTimer - 1 →
      tickTimer t = ({ t with gameTimer := t.gameTimer - 1 },
        [(t.gameTimer - 1, t.gameRunning, false)])) ∧
    (t.gameTimer - 1 ≤ 0 →
      tickTimer t =
        ({ gameTimer := 20, gameRunning := false, gamePaused := false,
           intervalActive := false },
         [(t.gameTimer - 1, t.gameRunning, false), (20, false, false),
          (20, false, false)])) := by
  constructor
  · intro hgt
    simp only [tickTimer, h, Bool.false_eq_true, if_false]
    rw [if_neg (by omega)]
    simp [timerSnapshot, h]
  · intro hle
    simp only [tickTimer, h, Bool.false_eq_true, if_false]
    rw [if_pos (by omega)]
    simp [stopTimer, timerSnapshot, h]

/-- Witness for C6 (amended): ticking at counter 1 expires the round. -/
theorem tick_effects_witness :
    tickTimer ⟨1, true, false, true⟩ =
      (⟨20, false, false, false⟩,
       [(0, true, false), (20, false, false), (20, false, false)]) :=
  (tick_effects ⟨1, true, false, true⟩ rfl).2 (by norm_num)

/-- Counterexample to C6 as stated: an expiring tick emits three snapshots in
total — the post-decrement one plus two more, not plus one. -/
theorem tick_expiry_three_broadcasts :
    (tickTimer ⟨1, true, false, true⟩).2.length = 3 ∧
    ¬((tickTimer ⟨1, true, false, true⟩).2.length = 2) := by
  decide

/-- Claim C5 (amended): only the join flow has the deterministic exhaustion
fallback — arena center minus half the player size, (568, 268), for an
infected joiner, and the margin-offset corner (80, 80) for a healthy joiner;
the reset sweep has no fallback (see the counterexample). -/
theorem join_fallback_positions (rand : ℕ → ℚ) (placed : List Player)
    (pl : Player) :
    ((placeLoop infectedCandidate 2 rand placed pl 0 MAX_SPAWN_ATTEMPTS).1 =
        none → joinPlaceInfected rand placed pl = (568, 268)) ∧
    ((placeLoop healthyCandidate 3 rand placed pl 0 MAX_SPAWN_ATTEMPTS).1 =
        none → joinPlaceHealthy rand placed pl = (80, 80)) := by
  constructor
  · intro h
    unfold joinPlaceInfected
    rw [h]
    norm_num [ARENA_WIDTH, ARENA_HEIGHT, PLAYER_SIZE]
  · intro h
    unfold joinPlaceHealthy
    rw [h]
    norm_num [EDGE_MARGIN]

/-- Witness for C5: with a `Math.random()` stream of zeros and a blocker
sitting exactly on the only candidate, all 100 join attempts fail and the
fallback positions are produced. -/
theorem join_fallback_positions_witness :
    joinPlaceInfected (fun _ => 0) [blockCenter] alice = (568, 268) ∧
    joinPlaceHealthy (fun _ => 0) [blockEdge] alice = (80, 80) :=
  ⟨(join_fallback_positions (fun _ => 0) [blockCenter] alice).1 (by decide),
   (join_fallback_positions (fun _ => 0) [blockEdge] alice).2 (by decide)⟩

/-- What the reset sweep guarantees per player: a successfully placed record
keeps its identity fields and has its collision marker cleared alongside the
new position; an exhausted record is left entirely unchanged. -/
def resetEntrySpec (pl : Player) (r : Player × Bool) : Prop :=
  (r.2 = true → r.1.collidingWith = none ∧ r.1.id = pl.id ∧
    r.1.isInfected = pl.isInfected ∧ r.1.name = pl.name ∧
    r.1.gender = pl.gender) ∧
  (r.2 = false → r.1 = pl)

theorem resetGroupLoop_spec (cand : (ℕ → ℚ) → ℕ → ℚ × ℚ) (draws : ℕ)
    (rand : ℕ → ℚ) :
    ∀ (group placed : List Player) (j : ℕ),
      List.Forall₂ resetEntrySpec group
        (resetGroupLoop cand draws rand group placed j).1
  | [], _, _ => List.Forall₂.nil
  | pl :: rest, placed, j => by
    unfold resetGroupLoop
    dsimp only
    split
    · exact List.Forall₂.cons
        ⟨fun _ => ⟨rfl, rfl, rfl, rfl, rfl⟩, fun hfalse => by simp at hfalse⟩
        (resetGroupLoop_spec cand draws rand rest _ _)
    · exact List.Forall₂.cons
        ⟨fun htrue => by simp at htrue, fun _ => rfl⟩
        (resetGroupLoop_spec cand draws rand rest _ _)

/-- Claim C10: in the reset sweep, every successfully placed player has its
`collidingWith` cleared along with its new position (identity fields kept);
a player whose 100 attempts all overlap keeps its record — position and
`collidingWith` — exactly as it was. -/
theorem reset_sweep_entry_effects (rand : ℕ → ℚ) (roster : List Player) :
    List.Forall₂ resetEntrySpec (roster.filter (fun p => p.isInfected))
      (resetAllPositions rand roster).1 ∧
    List.Forall₂ resetEntrySpec (roster.filter (fun p => !p.isInfected))
      (resetAllPositions rand roster).2 := by
  unfold resetAllPositions
  exact ⟨resetGroupLoop_spec infectedCandidate 2 rand _ _ _,
    resetGroupLoop_spec healthyCandidate 3 rand _ _ _⟩

/-- Counterexample to C5: in the reset sweep with a zero random stream, the
second infected player fails all 100 attempts and keeps its previous
position (10, 10) and its stale collision marker — it is not moved to the
claimed fallback (568, 268). -/
theorem reset_exhaustion_keeps_position :
    (resetAllPositions (fun _ => 0) [infA, infB]).1 =
      [({ infA with x := 500, y := 225, collidingWith := none }, true),
       (infB, false)] ∧
    infB.x = 10 ∧ infB.y = 10 ∧ infB.collidingWith = some "stale" ∧
    ¬(infB.x = 568 ∧ infB.y = 268) := by
  refine ⟨by decide, rfl, rfl, rfl, by decide⟩

/-- Claim C7 (amended): (i) two throttled triggers both arriving within
`BROADCAST_RATE` ms of the last emission coalesce into exactly one deferred
emission, fired at `lastBroadcastTime + BROADCAST_RATE` and carrying the
roster current at fire time; (ii) two triggers each at least
`BROADCAST_RATE` ms after the previous emission both emit immediately — two
emissions; (iii) while an emission is pending, a further trigger inside the
window changes no throttle state and schedules nothing. -/
theorem throttle_effects (L t1 t2 : ℤ) (r1 r2 rf : List Player) :
    (t1 ≤ t2 → t2 < L + BROADCAST_RATE →
      runThrottle ⟨L, false, none⟩
        [ThrottleEvent.trigger t1 r1, ThrottleEvent.trigger t2 r2,
         ThrottleEvent.fire (L + BROADCAST_RATE) rf] =
        (⟨L + BROADCAST_RATE, false, none⟩, [(L + BROADCAST_RATE, rf)])) ∧
    (BROADCAST_RATE ≤ t1 - L → BROADCAST_RATE ≤ t2 - t1 →
      runThrottle ⟨L, false, none⟩
        [ThrottleEvent.trigger t1 r1, ThrottleEvent.trigger t2 r2] =
        (⟨t2, false, none⟩, [(t1, r1), (t2, r2)])) ∧
    (∀ s : ThrottleState, s.broadcastPending = true →
      t1 - s.lastBroadcastTime < BROADCAST_RATE →
      broadcastPlayersThrottled t1 r1 s = (s, [])) := by
  refine ⟨?_, ?_, ?_⟩
  · intro h1 h2
    have harith : t1 + (BROADCAST_RATE - (t1 - L)) = L + BROADCAST_RATE := by
      ring
    have e1 : broadcastPlayersThrottled t1 r1 ⟨L, false, none⟩ =
        (⟨L, true, some (L + BROADCAST_RATE)⟩, []) := by
      unfold broadcastPlayersThrottled
      rw [if_neg (show ¬(t1 - (⟨L, false, none⟩ :
        ThrottleState).lastBroadcastTime ≥ BROADCAST_RATE) by
          simp only [BROADCAST_RATE] at h1 h2 ⊢
          omega)]
      rw [if_pos (show (!(⟨L, false, none⟩ :
        ThrottleState).broadcastPending) = true from rfl)]
      dsimp only
      rw [harith]
    have e2 : broadcastPlayersThrottled t2 r2
        ⟨L, true, some (L + BROADCAST_RATE)⟩ =
        (⟨L, true, some (L + BROADCAST_RATE)⟩, []) := by
      unfold broadcastPlayersThrottled
      rw [if_neg (show ¬(t2 - (⟨L, true, some (L + BROADCAST_RATE)⟩ :
        ThrottleState).lastBroadcastTime ≥ BROADCAST_RATE) by
          simp only [BROADCAST_RATE] at h2 ⊢
          omega)]
      rw [if_neg (show ¬((!(⟨L, true, some (L + BROADCAST_RATE)⟩ :
        ThrottleState).broadcastPending) = true) by simp)]
    simp only [runThrottle, e1, e2]
    simp [throttleTimeoutFire, broadcastPlayersImmediate]
  · intro h1 h2
    have e1 : broadcastPlayersThrottled t1 r1 ⟨L, false, none⟩ =
        (⟨t1, false, none⟩, [(t1, r1)]) := by
      unfold broadcastPlayersThrottled
      rw [if_pos (show t1 - (⟨L, false, none⟩ :
        ThrottleState).lastBroadcastTime ≥ BROADCAST_RATE from h1)]
      rfl
    have e2 : broadcastPlayersThrottled t2 r2 ⟨t1, false, none⟩ =
        (⟨t2, false, none⟩, [(t2, r2)]) := by
      unfold broadcastPlayersThrottled
      rw [if_pos (show t2 - (⟨t1, false, none⟩ :
        ThrottleState).lastBroadcastTime ≥ BROADCAST_RATE from h2)]
      rfl
    simp [runThrottle, e1, e2]
  · intro s hpend hlt
    unfold broadcastPlayersThrottled
    rw [if_neg (show ¬(t1 - s.lastBroadcastTime ≥ BROADCAST_RATE) by
      omega)]
    rw [if_neg (show ¬((!s.broadcastPending) = true) by
      rw [hpend]; decide)]

/-- Witness for C7 (amended): last emission at 1000; triggers at 1010 and
1020 coalesce into the single deferred emission at 1050 carrying the fire
roster; and triggers at 1050 and 1100 from a fresh window each emit. -/
theorem throttle_effects_witness :
    runThrottle ⟨1000, false, none⟩
      [ThrottleEvent.trigger 1010 [], ThrottleEvent.trigger 1020 [alice],
       ThrottleEvent.fire (1000 + BROADCAST_RATE) [alice, bob]] =
      (⟨1000 + BROADCAST_RATE, false, none⟩,
       [(1000 + BROADCAST_RATE, [alice, bob])]) ∧
    runThrottle ⟨1000, false, none⟩
      [ThrottleEvent.trigger 1050 [], ThrottleEvent.trigger 1100 [alice]] =
      (⟨1100, false, none⟩, [(1050, []), (1100, [alice])]) :=
  ⟨(throttle_effects 1000 1010 1020 [] [alice] [alice, bob]).1
      (by norm_num) (by norm_num [BROADCAST_RATE]),
   (throttle_effects 1000 1050 1100 [] [alice] []).2.1
      (by norm_num [BROADCAST_RATE]) (by norm_num [BROADCAST_RATE])⟩

/-- Counterexample to C7 as stated: two triggers only 10ms apart but landing
just after a stale window produce two emissions, and the first carries the
earlier roster — not exactly one emission with the later state. -/
theorem throttle_close_triggers_two_emissions :
    (runThrottle ⟨0, false, none⟩
      [ThrottleEvent.trigger 1000 [], ThrottleEvent.trigger 1010 [alice],
       ThrottleEvent.fire 1050 [alice]]).2 =
      [(1000, []), (1050, [alice])] ∧
    (runThrottle ⟨0, false, none⟩
      [ThrottleEvent.trigger 1000 [], ThrottleEvent.trigger 1010 [alice],
       ThrottleEvent.fire 1050 [alice]]).2.length = 2 ∧
    ((1010 : ℤ) - 1000 < 50) := by
  refine ⟨by decide, by decide, by decide⟩

end Arena
